import Mathlib

/-!
# Shallow embedding of the hand-tracking demo (src/index.js)

The demo captures webcam video, runs a hand-landmark model once per animation
frame, and renders the 21 returned landmarks as a 2D canvas overlay (filled
circles plus five finger polylines) and as a 3D scene (21 spheres plus five
line strips, rebuilt each frame).

Coordinates are modelled as rationals (ℚ) in place of JS numbers.  The 2D
canvas context is modelled as the list of draw calls it receives; the 3D
scene is modelled by the children lists of the two `THREE.Group`s the code
mutates (`nodeGroup` for sphere meshes, `handLineGroup` for line strips) —
all spheres and lines in the scene live in those two groups.
-/

/-- One landmark, a 3-element array `[x, y, z]` from the model
(`point[0] ↦ x`, `point[1] ↦ y`, `point[2] ↦ z`). -/
structure Landmark where
  x : ℚ
  y : ℚ
  z : ℚ
deriving DecidableEq, Repr

/-- A `THREE.Vector3` position of a scene object. -/
structure Vec3 where
  x : ℚ
  y : ℚ
  z : ℚ
deriving DecidableEq, Repr

/-- One hand prediction returned by `model.estimateHands`; only the
`landmarks` field is consumed by the rendering code. -/
structure Prediction where
  landmarks : List Landmark
deriving DecidableEq, Repr

/-- The `fingerLookupIndices` module object: for each finger, its 5 landmark
indices (the wrist, index 0, is shared by all five). -/
structure FingerLookupIndices where
  thumb : List Nat
  indexFinger : List Nat
  middleFinger : List Nat
  ringFinger : List Nat
  pinky : List Nat
deriving DecidableEq, Repr

def fingerLookupIndices : FingerLookupIndices :=
  { thumb := [0, 1, 2, 3, 4]
    indexFinger := [0, 5, 6, 7, 8]
    middleFinger := [0, 9, 10, 11, 12]
    ringFinger := [0, 13, 14, 15, 16]
    pinky := [0, 17, 18, 19, 20] }

/-- `Object.keys(fingerLookupIndices)` in insertion order, as used by the
loops in `drawKeypoints` and `initHandPose`. -/
def fingers : List (List Nat) :=
  [fingerLookupIndices.thumb, fingerLookupIndices.indexFinger,
   fingerLookupIndices.middleFinger, fingerLookupIndices.ringFinger,
   fingerLookupIndices.pinky]

def VIDEO_WIDTH : ℚ := 640
def VIDEO_HEIGHT : ℚ := 500

/-! ## 2D overlay renderer -/

/-- One draw call issued to the (pre-mirrored) 2D canvas context:
`point cx cy r` is `beginPath(); arc(cx, cy, r, 0, 2π); fill()` — a filled
circle of radius `r` centered at `(cx, cy)`; `path pts closed` is a `Path2D`
built by `moveTo`/`lineTo` through `pts`, `closePath()`ed iff `closed`, then
stroked. -/
inductive DrawCall where
  | point : ℚ → ℚ → ℚ → DrawCall
  | path : List (ℚ × ℚ) → Bool → DrawCall
deriving DecidableEq, Repr

/-- `drawPoint(ctx, y, x, r)`: fills a circle centered at `(x, y)` of radius
`r` (the first positional argument is named `y`, the second `x`). -/
def drawPoint (y x r : ℚ) : DrawCall :=
  DrawCall.point x y r

/-- `drawPath(ctx, points, closePath)`: `moveTo(points[0][0], points[0][1])`,
`lineTo` through the rest, `closePath()` iff the flag is set, then stroke. -/
def drawPath (points : List Landmark) (closePath : Bool) : DrawCall :=
  DrawCall.path (points.map fun p => (p.x, p.y)) closePath

/-- `drawKeypoints(ctx, keypoints)`: for each keypoint, with local
`y = keypoints[i][0]` and `x = keypoints[i][1]`, call
`drawPoint(ctx, x - 2, y - 2, 3)`; then for each finger of
`fingerLookupIndices` draw its polyline with `closePath = false`. -/
def drawKeypoints (keypoints : List Landmark) : List DrawCall :=
  (keypoints.map fun kp =>
    let y := kp.x
    let x := kp.y
    drawPoint (x - 2) (y - 2) 3)
  ++ (fingers.map fun finger =>
    drawPath (finger.map fun idx => keypoints.getD idx ⟨0, 0, 0⟩) false)

/-- The point-draw calls of a draw-call list, as (cx, cy, r) triples. -/
def pointCalls (calls : List DrawCall) : List (ℚ × ℚ × ℚ) :=
  calls.filterMap fun c =>
    match c with
    | DrawCall.point cx cy r => some (cx, cy, r)
    | DrawCall.path _ _ => none

/-- The polyline-draw calls of a draw-call list, as (points, closed) pairs. -/
def pathCalls (calls : List DrawCall) : List (List (ℚ × ℚ) × Bool) :=
  calls.filterMap fun c =>
    match c with
    | DrawCall.point _ _ _ => none
    | DrawCall.path pts closed => some (pts, closed)

/-! ## 3D hand visualizer -/

/-- The 3D scene contents: the children of the two persistent groups.
`nodeGroup` holds one sphere mesh position per landmark, `handLineGroup`
one point list per finger line strip. -/
structure Scene3D where
  nodeGroup : List Vec3
  handLineGroup : List (List Vec3)
deriving DecidableEq, Repr

/-- `drawFingerNode(x, y, z)`: creates a sphere mesh at position `(x, y, z)`
and `nodeGroup.add`s it (appended to the children list). -/
def drawFingerNode (nodeGroup : List Vec3) (x y z : ℚ) : List Vec3 :=
  nodeGroup ++ [⟨x, y, z⟩]

/-- `drawFingerMesh(points, geometry, line, idx1, idx2)`: pushes
`nodeGroup.children[0].position`, then `children[i].position` for
`i = idx1..idx2`, builds a line from those points and adds it to
`handLineGroup`. -/
def drawFingerMesh (nodeGroup : List Vec3) (handLineGroup : List (List Vec3))
    (idx1 idx2 : Nat) : List (List Vec3) :=
  let points := nodeGroup.getD 0 ⟨0, 0, 0⟩ ::
    (List.range' idx1 (idx2 + 1 - idx1)).map fun i => nodeGroup.getD i ⟨0, 0, 0⟩
  handLineGroup ++ [points]

/-- `initHandPose()`: one `drawFingerMesh` call per finger, with
`idx1 = fingerLookupIndices.<finger>[1]` and
`idx2 = fingerLookupIndices.<finger>[4]`. -/
def initHandPose (nodeGroup : List Vec3) (handLineGroup : List (List Vec3)) :
    List (List Vec3) :=
  let lg1 := drawFingerMesh nodeGroup handLineGroup
    (fingerLookupIndices.thumb.getD 1 0) (fingerLookupIndices.thumb.getD 4 0)
  let lg2 := drawFingerMesh nodeGroup lg1
    (fingerLookupIndices.indexFinger.getD 1 0) (fingerLookupIndices.indexFinger.getD 4 0)
  let lg3 := drawFingerMesh nodeGroup lg2
    (fingerLookupIndices.middleFinger.getD 1 0) (fingerLookupIndices.middleFinger.getD 4 0)
  let lg4 := drawFingerMesh nodeGroup lg3
    (fingerLookupIndices.ringFinger.getD 1 0) (fingerLookupIndices.ringFinger.getD 4 0)
  drawFingerMesh nodeGroup lg4
    (fingerLookupIndices.pinky.getD 1 0) (fingerLookupIndices.pinky.getD 4 0)

/-- One iteration `i` of `removeMesh`'s backwards loop:
`group.remove(group.children[i])` — `THREE.Group.remove` looks up the object
(first occurrence) in `children` and splices it out; if `children[i]` does
not exist, `remove(undefined)` is a no-op. -/
def removeMeshGo [BEq α] : List α → Nat → List α
  | children, 0 => children
  | children, i + 1 =>
    removeMeshGo
      (match children[i]? with
       | some c => children.erase c
       | none => children) i

/-- `removeMesh(group)`: `for (let i = children.length - 1; i >= 0; i--)
group.remove(children[i])`. -/
def removeMesh [BEq α] (children : List α) : List α :=
  removeMeshGo children children.length

/-! ## Frame handler -/

/-- `result.map(point => [-point[0], -point[1], -point[2]])`. -/
def pointsData (result : List Landmark) : List Landmark :=
  result.map fun point => ⟨-point.x, -point.y, -point.z⟩

/-- The sphere-building loop of `frameLandmarks`:
`for (let i = 0; i < 21; i++) drawFingerNode(pointsData[i][0] + VIDEO_WIDTH,
pointsData[i][1] + VIDEO_HEIGHT, pointsData[i][2])`. -/
def buildNodeGroup (start : List Vec3) (result : List Landmark) : List Vec3 :=
  (List.range 21).foldl
    (fun g i =>
      let p := (pointsData result).getD i ⟨0, 0, 0⟩
      drawFingerNode g (p.x + VIDEO_WIDTH) (p.y + VIDEO_HEIGHT) p.z)
    start

/-- `frameLandmarks()` for one frame, given the current scene state and the
predictions returned by `model.estimateHands`: returns the landmark draw
calls issued to the 2D context and the new scene state.  `renderPointcloud`
is the module-level constant (`mobile === false`); the unconditional
`ctx.drawImage` of the raw video frame and the stats bookkeeping are outside
the model.  When `predictions` is empty nothing at all is drawn or changed. -/
def frameLandmarks (renderPointcloud : Bool) (s : Scene3D)
    (predictions : List Prediction) : List DrawCall × Scene3D :=
  match predictions with
  | [] => ([], s)
  | prediction0 :: _ =>
    let result := prediction0.landmarks
    let calls := drawKeypoints result
    if renderPointcloud = true then
      let ng1 := removeMesh s.nodeGroup
      let lg1 := removeMesh s.handLineGroup
      let ng2 := buildNodeGroup ng1 result
      let lg2 := initHandPose ng2 lg1
      (calls, { nodeGroup := ng2, handLineGroup := lg2 })
    else
      (calls, s)

/-! ## Debug panel (dat.GUI) -/

/-- The mutable view state: `state.renderPointcloud` and the
`#scatter-gl-container` display style the GUI callback mutates. -/
structure ViewState where
  renderPointcloudFlag : Bool
  scatterGlContainerDisplay : String
deriving DecidableEq, Repr

/-- The `onChange` callback installed by `setupDatGui`: sets the flag and
the container's display to `'inline-block'` or `'none'`. -/
def onRenderPointcloudChange (_v : ViewState) (render : Bool) : ViewState :=
  { renderPointcloudFlag := render
    scatterGlContainerDisplay := if render then "inline-block" else "none" }

/-- `frameLandmarks` as run in the application, with the view state in
scope: the source tests the module constant `renderPointcloud`, never
`state.renderPointcloud`, so the view state is unused. -/
def frameLandmarksWithView (renderPointcloud : Bool) (_v : ViewState)
    (s : Scene3D) (predictions : List Prediction) : List DrawCall × Scene3D :=
  frameLandmarks renderPointcloud s predictions

/-! ## Camera setup and main -/

/-- The browser capabilities and outcome `setupCamera` observes:
whether `navigator.mediaDevices` / `getUserMedia` exist, and whether the
`getUserMedia` call rejects (with which message). -/
structure NavigatorModel where
  hasMediaDevices : Bool
  hasGetUserMedia : Bool
  getUserMediaError : Option String
deriving DecidableEq, Repr

/-- `setupCamera()`: throws when the camera API is missing, propagates the
browser's rejection when acquisition fails, else resolves with the video. -/
def setupCamera (nav : NavigatorModel) : Except String Unit :=
  if !nav.hasMediaDevices || !nav.hasGetUserMedia then
    Except.error "Browser API navigator.mediaDevices.getUserMedia not available"
  else
    match nav.getUserMediaError with
    | some msg => Except.error msg
    | none => Except.ok ()

/-- `loadVideo()`: awaits `setupCamera` then plays the video. -/
def loadVideo (nav : NavigatorModel) : Except String Unit :=
  setupCamera nav

/-- The `#info` status text region. -/
structure InfoElement where
  textContent : String
  display : String
deriving DecidableEq, Repr

/-- The observable outcome of `main()`: the status region's final state,
whether `landmarksRealTime` (which starts the `frameLandmarks` loop) was
reached, and the re-thrown error if any. -/
structure MainResult where
  info : InfoElement
  frameLoopStarted : Bool
  thrown : Option String
deriving DecidableEq, Repr

/-- `main()`: `try { video = await loadVideo() } catch (e) { info.textContent
= e.message; info.style.display = 'block'; throw e }` then
`landmarksRealTime(video)`.  (Named `mainFn` here because `main` is
reserved.) -/
def mainFn (nav : NavigatorModel) (info0 : InfoElement) : MainResult :=
  match loadVideo nav with
  | Except.error msg =>
    { info := { textContent := msg, display := "block" }
      frameLoopStarted := false
      thrown := some msg }
  | Except.ok _ =>
    { info := info0, frameLoopStarted := true, thrown := none }

/-! ## Derived forms used in the claim statements -/

/-- The net coordinate transform the 3D pipeline applies to a landmark:
negate all three coordinates, then add `VIDEO_WIDTH` to x and `VIDEO_HEIGHT`
to y (z stays negated). -/
def transformLandmark (p : Landmark) : Vec3 :=
  ⟨-p.x + VIDEO_WIDTH, -p.y + VIDEO_HEIGHT, -p.z⟩

/-- Direct finger-line construction in the spec's words: reuse the
already-computed transformed coordinates per finger, without reading back
sphere positions from the scene graph. -/
def linesFromTransformedDirect (result : List Landmark) : List (List Vec3) :=
  fingers.map fun finger =>
    finger.map fun idx => transformLandmark (result.getD idx ⟨0, 0, 0⟩)

/-- A concrete 21-entry landmark set whose wrist landmark is (10, 20, 5). -/
def sampleLandmarks : List Landmark :=
  ⟨10, 20, 5⟩ :: (List.range 20).map fun i => ⟨i, 2 * i, 3 * i⟩

/-! ## Helper lemmas -/

lemma removeMeshGo_eq_nil {α : Type} [BEq α] [LawfulBEq α] :
    ∀ (n : Nat) (l : List α), l.length = n → removeMeshGo l n = [] := by
  intro n
  induction n with
  | zero =>
    intro l h
    rw [List.length_eq_zero] at h
    subst h
    rfl
  | succ k ih =>
    intro l h
    have hk : k < l.length := by omega
    rw [removeMeshGo, List.getElem?_eq_getElem hk]
    apply ih
    rw [List.length_erase_of_mem (List.getElem_mem hk), h]
    omega

lemma removeMesh_eq_nil {α : Type} [BEq α] [LawfulBEq α] (l : List α) :
    removeMesh l = [] :=
  removeMeshGo_eq_nil l.length l rfl

lemma foldl_push {α β : Type} (l : List α) (start : List β) (f : α → β) :
    l.foldl (fun g i => g ++ [f i]) start = start ++ l.map f := by
  induction l generalizing start with
  | nil => simp
  | cons a t ih => simp [ih]

lemma pointsData_getD (result : List Landmark) (i : Nat) (hi : i < result.length) :
    (pointsData result).getD i ⟨0, 0, 0⟩ =
      ⟨-(result.getD i ⟨0, 0, 0⟩).x, -(result.getD i ⟨0, 0, 0⟩).y,
       -(result.getD i ⟨0, 0, 0⟩).z⟩ := by
  simp [pointsData, List.getD_eq_getElem?_getD, List.getElem?_map,
    List.getElem?_eq_getElem hi]

lemma getD_range_map (F : Nat → Vec3) (i n : Nat) (d : Vec3) (h : i < n) :
    ((List.range n).map F).getD i d = F i := by
  simp [List.getD_eq_getElem?_getD, List.getElem?_map, List.getElem?_range h]

lemma buildNodeGroup_spec (result : List Landmark) (h : result.length = 21) :
    buildNodeGroup [] result =
      (List.range 21).map fun i => transformLandmark (result.getD i ⟨0, 0, 0⟩) := by
  rw [buildNodeGroup]
  refine Eq.trans (foldl_push (List.range 21) [] fun i =>
    (⟨((pointsData result).getD i ⟨0, 0, 0⟩).x + VIDEO_WIDTH,
      ((pointsData result).getD i ⟨0, 0, 0⟩).y + VIDEO_HEIGHT,
      ((pointsData result).getD i ⟨0, 0, 0⟩).z⟩ : Vec3)) ?_
  rw [List.nil_append]
  apply List.map_congr_left
  intro i hi
  rw [List.mem_range] at hi
  simp only [pointsData_getD result i (by omega)]
  rfl

lemma initHandPose_map (F : Nat → Vec3) (lg : List (List Vec3)) :
    initHandPose ((List.range 21).map F) lg =
      lg ++ [[F 0, F 1, F 2, F 3, F 4],
             [F 0, F 5, F 6, F 7, F 8],
             [F 0, F 9, F 10, F 11, F 12],
             [F 0, F 13, F 14, F 15, F 16],
             [F 0, F 17, F 18, F 19, F 20]] := by
  simp [initHandPose, drawFingerMesh, fingerLookupIndices, getD_range_map,
    List.range']

lemma filterMap_some_eq_map {α β : Type} (l : List α) (f : α → β) :
    (l.filterMap fun a => some (f a)) = l.map f := by
  induction l with
  | nil => rfl
  | cons a t ih => simp [List.filterMap_cons, ih]

lemma pointCalls_drawKeypoints (keypoints : List Landmark) :
    pointCalls (drawKeypoints keypoints) =
      keypoints.map fun kp => (kp.x - 2, kp.y - 2, (3 : ℚ)) := by
  simp only [drawKeypoints, pointCalls, drawPoint, drawPath,
    List.filterMap_append, List.filterMap_map, Function.comp_def]
  simp [filterMap_some_eq_map]

lemma pathCalls_drawKeypoints (keypoints : List Landmark) :
    pathCalls (drawKeypoints keypoints) =
      fingers.map fun finger =>
        (finger.map fun idx =>
          ((keypoints.getD idx ⟨0, 0, 0⟩).x, (keypoints.getD idx ⟨0, 0, 0⟩).y),
         false) := by
  simp only [drawKeypoints, pathCalls, drawPoint, drawPath,
    List.filterMap_append, List.filterMap_map, Function.comp_def, List.map_map]
  simp [filterMap_some_eq_map]

lemma frameLandmarks_cons_true (s : Scene3D) (result : List Landmark)
    (rest : List Prediction) (h : result.length = 21) :
    frameLandmarks true s ({ landmarks := result } :: rest) =
      (drawKeypoints result,
       { nodeGroup := (List.range 21).map fun i =>
           transformLandmark (result.getD i ⟨0, 0, 0⟩)
         handLineGroup := fingers.map fun finger =>
           finger.map fun idx => transformLandmark (result.getD idx ⟨0, 0, 0⟩) }) := by
  show (drawKeypoints result,
    ({ nodeGroup := buildNodeGroup (removeMesh s.nodeGroup) result
       handLineGroup := initHandPose (buildNodeGroup (removeMesh s.nodeGroup) result)
         (removeMesh s.handLineGroup) } : Scene3D)) = _
  rw [removeMesh_eq_nil, removeMesh_eq_nil, buildNodeGroup_spec result h,
    initHandPose_map]
  rfl

/-! ## Claim theorems -/

/-- C1 counterexample: after a frame whose prediction carried 21 landmarks,
processing a frame with zero predictions leaves all 21 spheres in the
scene — the sphere count is 21, not 0, contradicting the claim that after a
zero-prediction frame the scene contains zero spheres. -/
theorem c1_counterexample :
    (frameLandmarks true
      (frameLandmarks true { nodeGroup := [], handLineGroup := [] }
        [{ landmarks := sampleLandmarks }]).2
      []).2.nodeGroup.length = 21 ∧
    (frameLandmarks true
      (frameLandmarks true { nodeGroup := [], handLineGroup := [] }
        [{ landmarks := sampleLandmarks }]).2
      []).2.nodeGroup.length ≠ 0 := by
  constructor
  · decide
  · decide

/-- C1 (amended): for every processed frame with zero predictions, the frame
handler performs no draw step and leaves the 3D scene exactly as it was —
the sphere and line counts equal those left by the most recent frame that
carried a prediction (zero only if no hand has been detected since startup). -/
theorem c1_zero_predictions_scene_unchanged (rp : Bool) (s : Scene3D) :
    frameLandmarks rp s [] = ([], s) :=
  rfl

/-- C2: for every valid Landmark Set (exactly 21 entries), one frame-handler
invocation with a non-empty prediction yields exactly 21 spheres and exactly
5 lines in the 3D groups, and the resulting scene is independent of the
previous scene contents (all previous spheres and lines are removed before
the new ones are added), so counts never accumulate across invocations. -/
theorem c2_rebuild_counts (s : Scene3D) (p : Prediction) (rest : List Prediction)
    (h : p.landmarks.length = 21) :
    (frameLandmarks true s (p :: rest)).2.nodeGroup.length = 21 ∧
    (frameLandmarks true s (p :: rest)).2.handLineGroup.length = 5 ∧
    (frameLandmarks true s (p :: rest)).2 =
      (frameLandmarks true { nodeGroup := [], handLineGroup := [] } (p :: rest)).2 := by
  obtain ⟨result⟩ := p
  rw [frameLandmarks_cons_true s result rest h,
    frameLandmarks_cons_true { nodeGroup := [], handLineGroup := [] } result rest h]
  refine ⟨?_, rfl, rfl⟩
  simp

/-- C2 witness: a frame processed from a dirty scene (one stale sphere, one
stale line) ends with exactly 21 spheres, 5 lines, and the same scene a run
from the empty scene produces. -/
theorem c2_rebuild_counts_witness :
    sampleLandmarks.length = 21 ∧
    ((frameLandmarks true { nodeGroup := [⟨0, 0, 0⟩], handLineGroup := [[⟨1, 1, 1⟩]] }
        ({ landmarks := sampleLandmarks } :: [])).2.nodeGroup.length = 21 ∧
     (frameLandmarks true { nodeGroup := [⟨0, 0, 0⟩], handLineGroup := [[⟨1, 1, 1⟩]] }
        ({ landmarks := sampleLandmarks } :: [])).2.handLineGroup.length = 5 ∧
     (frameLandmarks true { nodeGroup := [⟨0, 0, 0⟩], handLineGroup := [[⟨1, 1, 1⟩]] }
        ({ landmarks := sampleLandmarks } :: [])).2 =
       (frameLandmarks true { nodeGroup := [], handLineGroup := [] }
        ({ landmarks := sampleLandmarks } :: [])).2) :=
  ⟨rfl, c2_rebuild_counts { nodeGroup := [⟨0, 0, 0⟩], handLineGroup := [[⟨1, 1, 1⟩]] }
    { landmarks := sampleLandmarks } [] rfl⟩

/-- C3: every sphere the frame handler places is at the negate-then-offset
transform of its landmark: position (-x + 640, -y + 500, -z) with
VIDEO_WIDTH = 640 and VIDEO_HEIGHT = 500. -/
theorem c3_sphere_positions (s : Scene3D) (result : List Landmark)
    (rest : List Prediction) (h : result.length = 21) (i : Nat) (hi : i < 21) :
    (frameLandmarks true s ({ landmarks := result } :: rest)).2.nodeGroup[i]? =
      some ⟨-(result.getD i ⟨0, 0, 0⟩).x + VIDEO_WIDTH,
            -(result.getD i ⟨0, 0, 0⟩).y + VIDEO_HEIGHT,
            -(result.getD i ⟨0, 0, 0⟩).z⟩ := by
  rw [frameLandmarks_cons_true s result rest h]
  simp [List.getElem?_map, List.getElem?_range hi, transformLandmark]

/-- C3 witness: the landmark (10, 20, 5) is placed at exactly
(630, 480, -5). -/
theorem c3_sphere_positions_witness :
    sampleLandmarks.length = 21 ∧ (0 : Nat) < 21 ∧
    (frameLandmarks true { nodeGroup := [], handLineGroup := [] }
      ({ landmarks := sampleLandmarks } :: [])).2.nodeGroup[0]? =
      some ⟨630, 480, -5⟩ :=
  ⟨rfl, by decide,
    (c3_sphere_positions { nodeGroup := [], handLineGroup := [] }
      sampleLandmarks [] rfl 0 (by decide)).trans
      (by norm_num [sampleLandmarks, VIDEO_WIDTH, VIDEO_HEIGHT])⟩

/-- C4: for every finger group j, the constructed line strip has exactly 5
points, equals the sphere positions at that finger's grouping indices in
index order, and its first point is the wrist sphere's position
(nodeGroup child 0). -/
theorem c4_finger_lines (s : Scene3D) (result : List Landmark)
    (rest : List Prediction) (h : result.length = 21) (j : Nat) (hj : j < 5) :
    (frameLandmarks true s ({ landmarks := result } :: rest)).2.handLineGroup[j]? =
      some ((fingers.getD j []).map fun idx =>
        transformLandmark (result.getD idx ⟨0, 0, 0⟩)) ∧
    ((frameLandmarks true s ({ landmarks := result } :: rest)).2.handLineGroup.getD j []).length = 5 ∧
    ((frameLandmarks true s ({ landmarks := result } :: rest)).2.handLineGroup.getD j []).head? =
      (frameLandmarks true s ({ landmarks := result } :: rest)).2.nodeGroup[0]? := by
  rw [frameLandmarks_cons_true s result rest h]
  interval_cases j <;> exact ⟨rfl, rfl, rfl⟩

/-- C4 witness: for the thumb group (j = 0, indices 0,1,2,3,4) of a concrete
Landmark Set, the line strip is the positions of landmarks 0..4 in order,
has 5 points, and starts at the wrist sphere's position. -/
theorem c4_finger_lines_witness :
    sampleLandmarks.length = 21 ∧ (0 : Nat) < 5 ∧
    ((frameLandmarks true { nodeGroup := [], handLineGroup := [] }
        ({ landmarks := sampleLandmarks } :: [])).2.handLineGroup[0]? =
      some ((fingers.getD 0 []).map fun idx =>
        transformLandmark (sampleLandmarks.getD idx ⟨0, 0, 0⟩)) ∧
     ((frameLandmarks true { nodeGroup := [], handLineGroup := [] }
        ({ landmarks := sampleLandmarks } :: [])).2.handLineGroup.getD 0 []).length = 5 ∧
     ((frameLandmarks true { nodeGroup := [], handLineGroup := [] }
        ({ landmarks := sampleLandmarks } :: [])).2.handLineGroup.getD 0 []).head? =
      (frameLandmarks true { nodeGroup := [], handLineGroup := [] }
        ({ landmarks := sampleLandmarks } :: [])).2.nodeGroup[0]?) :=
  ⟨rfl, by decide,
    c4_finger_lines { nodeGroup := [], handLineGroup := [] }
      sampleLandmarks [] rfl 0 (by decide)⟩

/-- C5: for every landmark, the 2D overlay renderer issues one filled-circle
draw call of radius 3 centered at (x - 2, y - 2): the point-draw calls of
drawKeypoints are exactly the landmarks mapped to those centers. -/
theorem c5_keypoint_circles (keypoints : List Landmark) :
    pointCalls (drawKeypoints keypoints) =
      keypoints.map fun kp => (kp.x - 2, kp.y - 2, (3 : ℚ)) :=
  pointCalls_drawKeypoints keypoints

/-- C6: for a 21-entry Landmark Set, drawKeypoints issues exactly 21
point-draw calls and exactly 5 polyline-draw calls, one per finger in
fingerLookupIndices order, and every polyline is drawn with the close-path
flag unset. -/
theorem c6_draw_call_counts (keypoints : List Landmark) (h : keypoints.length = 21) :
    (pointCalls (drawKeypoints keypoints)).length = 21 ∧
    (pathCalls (drawKeypoints keypoints)).length = 5 ∧
    pathCalls (drawKeypoints keypoints) =
      fingers.map (fun finger =>
        (finger.map fun idx =>
          ((keypoints.getD idx ⟨0, 0, 0⟩).x, (keypoints.getD idx ⟨0, 0, 0⟩).y),
         false)) ∧
    ∀ pc ∈ pathCalls (drawKeypoints keypoints), pc.2 = false := by
  refine ⟨?_, ?_, pathCalls_drawKeypoints keypoints, ?_⟩
  · rw [pointCalls_drawKeypoints, List.length_map, h]
  · rw [pathCalls_drawKeypoints]
    rfl
  · rw [pathCalls_drawKeypoints]
    intro pc hpc
    obtain ⟨finger, _, rfl⟩ := List.mem_map.mp hpc
    rfl

/-- C6 witness: on a concrete 21-entry Landmark Set the renderer issues 21
point draws and 5 open polyline draws. -/
theorem c6_draw_call_counts_witness :
    sampleLandmarks.length = 21 ∧
    ((pointCalls (drawKeypoints sampleLandmarks)).length = 21 ∧
     (pathCalls (drawKeypoints sampleLandmarks)).length = 5 ∧
     pathCalls (drawKeypoints sampleLandmarks) =
       fingers.map (fun finger =>
         (finger.map fun idx =>
           ((sampleLandmarks.getD idx ⟨0, 0, 0⟩).x, (sampleLandmarks.getD idx ⟨0, 0, 0⟩).y),
          false)) ∧
     ∀ pc ∈ pathCalls (drawKeypoints sampleLandmarks), pc.2 = false) :=
  ⟨rfl, c6_draw_call_counts sampleLandmarks rfl⟩

/-- C7: camera setup throws the "Browser API
navigator.mediaDevices.getUserMedia not available" error whenever the
platform lacks the camera API, and for every setup failure main writes the
error message into the status region, makes it visible (display 'block'),
re-throws the error, and never starts the frame loop. -/
theorem c7_camera_failure_is_fatal (nav : NavigatorModel) (info0 : InfoElement) :
    ((nav.hasMediaDevices = false ∨ nav.hasGetUserMedia = false) →
      setupCamera nav =
        Except.error "Browser API navigator.mediaDevices.getUserMedia not available") ∧
    (∀ msg, loadVideo nav = Except.error msg →
      mainFn nav info0 =
        { info := { textContent := msg, display := "block" }
          frameLoopStarted := false
          thrown := some msg }) := by
  constructor
  · intro hmiss
    rcases hmiss with h | h <;> simp [setupCamera, h]
  · intro msg herr
    rw [mainFn, herr]

/-- C7 witness: a platform without mediaDevices throws the no-camera-API
error, and a denied acquisition surfaces "Permission denied" in a visible
status region without starting the frame loop. -/
theorem c7_camera_failure_is_fatal_witness :
    setupCamera { hasMediaDevices := false, hasGetUserMedia := false,
                  getUserMediaError := none } =
      Except.error "Browser API navigator.mediaDevices.getUserMedia not available" ∧
    mainFn { hasMediaDevices := true, hasGetUserMedia := true,
             getUserMediaError := some "Permission denied" }
        { textContent := "", display := "none" } =
      { info := { textContent := "Permission denied", display := "block" }
        frameLoopStarted := false
        thrown := some "Permission denied" } :=
  ⟨(c7_camera_failure_is_fatal
      { hasMediaDevices := false, hasGetUserMedia := false, getUserMediaError := none }
      { textContent := "", display := "none" }).1 (Or.inl rfl),
   (c7_camera_failure_is_fatal
      { hasMediaDevices := true, hasGetUserMedia := true,
        getUserMediaError := some "Permission denied" }
      { textContent := "", display := "none" }).2 "Permission denied" rfl⟩

/-- C8: the point-cloud toggle callback changes only the view state (the
flag and the container's display style); the frame handler reads the module
constant, not the toggled flag, so its draw calls, scene, and sphere/line
counts are identical for both flag values. -/
theorem c8_toggle_display_only (rp : Bool) (v : ViewState) (b : Bool)
    (s : Scene3D) (predictions : List Prediction) :
    (onRenderPointcloudChange v b).renderPointcloudFlag = b ∧
    (onRenderPointcloudChange v b).scatterGlContainerDisplay =
      (if b then "inline-block" else "none") ∧
    frameLandmarksWithView rp (onRenderPointcloudChange v b) s predictions =
      frameLandmarksWithView rp v s predictions ∧
    (frameLandmarksWithView rp (onRenderPointcloudChange v b) s predictions).2.nodeGroup.length =
      (frameLandmarksWithView rp v s predictions).2.nodeGroup.length ∧
    (frameLandmarksWithView rp (onRenderPointcloudChange v b) s predictions).2.handLineGroup.length =
      (frameLandmarksWithView rp v s predictions).2.handLineGroup.length :=
  ⟨rfl, rfl, rfl, rfl, rfl⟩

/-- C9: the finger-line builder that reads back the just-created sphere
positions produces, for every 21-entry Landmark Set, the same line strips
as the direct construction from the transformed coordinates. -/
theorem c9_sphere_readback_equals_direct (s : Scene3D) (result : List Landmark)
    (rest : List Prediction) (h : result.length = 21) :
    (frameLandmarks true s ({ landmarks := result } :: rest)).2.handLineGroup =
      linesFromTransformedDirect result := by
  rw [frameLandmarks_cons_true s result rest h]
  rfl

/-- C9 witness: the two constructions coincide on a concrete Landmark Set. -/
theorem c9_sphere_readback_equals_direct_witness :
    sampleLandmarks.length = 21 ∧
    (frameLandmarks true { nodeGroup := [], handLineGroup := [] }
        ({ landmarks := sampleLandmarks } :: [])).2.handLineGroup =
      linesFromTransformedDirect sampleLandmarks :=
  ⟨rfl, c9_sphere_readback_equals_direct { nodeGroup := [], handLineGroup := [] }
    sampleLandmarks [] rfl⟩

/-- C10: one removeMesh call empties a group entirely, whatever its initial
child count — the backwards iteration removes every child even though each
removal mutates the children list; stated for both the sphere group and the
line group. -/
theorem c10_removeMesh_empties (spheres : List Vec3) (lines : List (List Vec3)) :
    removeMesh spheres = [] ∧ removeMesh lines = [] :=
  ⟨removeMesh_eq_nil spheres, removeMesh_eq_nil lines⟩
